import Mathlib

/-!
Verification of the alerting core of the pret-inventory-monitor repository.

The definitions below are a shallow embedding of `src/monitor/src/alerts.ts`
(classes `AlertManager` and `SmartAlertFilter`) and of
`calculateAlertSeverity` from `src/monitor/src/utils.ts`.

Modelling conventions:
- JavaScript numbers used only in comparisons are modelled as `Rat`
  (temperatures, fill percentages, confidences) or `Int` (epoch-millisecond
  timestamps and durations); no floating-point rounding is exercised by any
  of the code paths under study.
- Optional / possibly-`undefined` values are `Option`.  JavaScript truthiness
  tests such as `if (context.confidence)` are modelled explicitly: a number is
  truthy iff present and nonzero, a string iff present and nonempty, a boolean
  iff present and `true`.
- `Alert['type']` is modelled as `String`: at runtime the switch statements
  fall through to their defensive defaults for any other string, and the spec
  speaks about unknown types.
- JavaScript `Map` objects are association lists in insertion order
  (`Map.set` replaces in place, otherwise appends; `Map.delete` removes).
- `JSON.parse`/`JSON.stringify` are modelled at the level of the JSON tree
  (`Json` below); a failed parse of a non-JSON string is the `none` input of
  `importAlertsJson`.
-/

/-! ## Severity classifier (`utils.ts`, `calculateAlertSeverity`) -/

inductive Severity where
  | low
  | medium
  | high
  | critical
deriving DecidableEq, Repr

/-- Context argument of `calculateAlertSeverity` in `utils.ts`. -/
structure SeverityContext where
  temperature : Option ℚ := none
  fillPercent : Option ℚ := none
  confidence : Option ℚ := none
deriving DecidableEq, Repr

/-- Embedding of `calculateAlertSeverity` (utils.ts lines 51-77).
The source guards `if (!context.temperature)` and `if (!context.fillPercent)`
are JavaScript truthiness tests, so they send both an absent field and the
value `0` to `medium`; the `t = 0` / `fp = 0` branches record exactly that. -/
def calculateAlertSeverity (ty : String) (c : SeverityContext) : Severity :=
  if ty = "temperature" then
    match c.temperature with
    | none => .medium
    | some t =>
      if t = 0 then .medium
      else
        let tempAbs := |t|
        if tempAbs > 10 then .critical
        else if tempAbs > 5 then .high
        else if tempAbs > 2 then .medium
        else .low
  else if ty = "empty_shelf" then
    match c.fillPercent with
    | none => .medium
    | some fp =>
      if fp = 0 then .medium
      else if fp < 5 then .high
      else if fp < 15 then .medium
      else if fp < 25 then .low
      else .low
  else if ty = "equipment_failure" then .critical
  else .medium

/-- The severity rule table exactly as claim C3 states it: `medium` only when
the context field is absent, otherwise classified purely by the numeric
thresholds.  Kept separate from `calculateAlertSeverity` so the two can be
compared. -/
def claimSeverityTable (ty : String) (c : SeverityContext) : Severity :=
  if ty = "temperature" then
    match c.temperature with
    | none => .medium
    | some t =>
      if |t| > 10 then .critical
      else if |t| > 5 then .high
      else if |t| > 2 then .medium
      else .low
  else if ty = "empty_shelf" then
    match c.fillPercent with
    | none => .medium
    | some fp =>
      if fp < 5 then .high
      else if fp < 15 then .medium
      else if fp < 25 then .low
      else .low
  else if ty = "equipment_failure" then .critical
  else .medium

/-- The severity rule table of claim C3 amended at the truthiness corner:
a temperature of `0` and a fill percentage of `0` classify as `medium`,
exactly like an absent field, because the source tests `!context.temperature`
and `!context.fillPercent`. -/
def amendedSeverityTable (ty : String) (c : SeverityContext) : Severity :=
  if ty = "temperature" then
    match c.temperature with
    | none => .medium
    | some t =>
      if t = 0 then .medium
      else if |t| > 10 then .critical
      else if |t| > 5 then .high
      else if |t| > 2 then .medium
      else .low
  else if ty = "empty_shelf" then
    match c.fillPercent with
    | none => .medium
    | some fp =>
      if fp = 0 then .medium
      else if fp < 5 then .high
      else if fp < 15 then .medium
      else if fp < 25 then .low
      else .low
  else if ty = "equipment_failure" then .critical
  else .medium

/-! ## Association lists: the JavaScript `Map` objects of `SmartAlertFilter` -/

/-- `Map.get`: value of the first (and, for a JavaScript `Map`, only)
occurrence of a key. -/
def lookupA {α : Type} (l : List (String × α)) (k : String) : Option α :=
  match l with
  | [] => none
  | (k', v) :: t => if k' = k then some v else lookupA t k

/-- `Map.set`: replace the value of an existing key in place, otherwise
append the new entry at the end. -/
def setA {α : Type} (l : List (String × α)) (k : String) (v : α) : List (String × α) :=
  match l with
  | [] => [(k, v)]
  | (k', v') :: t => if k' = k then (k, v) :: t else (k', v') :: setA t k v

/-! ## Suppression engine (`alerts.ts`, class `SmartAlertFilter`) -/

/-- The `context` argument of `SmartAlertFilter.shouldSuppressAlert`. -/
structure AlertContext where
  personDetected : Option Bool := none
  isBusinessHours : Option Bool := none
  fillPercent : Option ℚ := none
  temperature : Option ℚ := none
  confidence : Option ℚ := none
deriving DecidableEq, Repr

/-- JavaScript truthiness of an optional boolean field. -/
def truthyBool : Option Bool → Bool
  | some b => b
  | none => false

/-- JavaScript `context.x && p(context.x)` for an optional numeric field:
the field must be present and nonzero (truthy) and satisfy the comparison. -/
def numTest (o : Option ℚ) (p : ℚ → Bool) : Bool :=
  match o with
  | some x => decide (x ≠ 0) && p x
  | none => false

/-- Embedding of `SmartAlertFilter.shouldSuppressBasedOnContext`
(alerts.ts lines 420-463).  The `switch` has no `default` case and the
`equipment_failure` arm only `break`s, so every other type yields `false`. -/
def shouldSuppressBasedOnContext (ty : String) (c : AlertContext) : Bool :=
  if ty = "empty_shelf" then
    truthyBool c.personDetected ||
    numTest c.fillPercent (fun fp => decide (fp > 20)) ||
    (!truthyBool c.isBusinessHours && numTest c.fillPercent (fun fp => decide (fp > 10)))
  else if ty = "temperature" then
    (truthyBool c.isBusinessHours && numTest c.temperature (fun t => decide (|t| < 3))) ||
    numTest c.temperature (fun t => decide (|t| < 1))
  else false

/-- Embedding of `SmartAlertFilter.getMinConfidence` (alerts.ts lines
490-498): the per-type minima with the `|| 75` defensive default. -/
def getMinConfidence (ty : String) : ℚ :=
  if ty = "empty_shelf" then 70
  else if ty = "temperature" then 80
  else if ty = "equipment_failure" then 90
  else 75

/-- The third suppression test of `shouldSuppressAlert`:
`context.confidence && context.confidence < this.getMinConfidence(type)`. -/
def confidenceSuppressed (ty : String) (c : AlertContext) : Bool :=
  numTest c.confidence (fun conf => decide (conf < getMinConfidence ty))

/-- The default-window computation inside `SmartAlertFilter.getSuppressionTime`
(alerts.ts lines 473-487): per-type base times in milliseconds with the
`|| 5 * 60 * 1000` fallback, halved during business hours for
`equipment_failure` and `temperature`. -/
def defaultSuppressionTime (ty : String) (c : AlertContext) : Int :=
  let base : Int :=
    if ty = "empty_shelf" then 300000
    else if ty = "temperature" then 600000
    else if ty = "equipment_failure" then 120000
    else 300000
  if truthyBool c.isBusinessHours && (decide (ty = "equipment_failure") || decide (ty = "temperature")) then
    base / 2
  else base

/-- Embedding of `SmartAlertFilter.getSuppressionTime` (alerts.ts lines
465-488).  `if (customRule) return customRule` is a truthiness test, so a
custom rule of `0` falls through to the default computation. -/
def getSuppressionTime (rules : List (String × Int)) (ty : String) (c : AlertContext) : Int :=
  match lookupA rules ty with
  | some v => if v ≠ 0 then v else defaultSuppressionTime ty c
  | none => defaultSuppressionTime ty c

/-- The retention test of `cleanupOldEntries`: an entry survives when it is
at most one hour old (the source deletes when `now - time > oneHour`). -/
def keepEntry (now : Int) (p : String × Int) : Bool := decide (now - p.2 ≤ 3600000)

/-- Embedding of `SmartAlertFilter.cleanupOldEntries` (alerts.ts lines
500-509): delete every timing entry strictly older than one hour. -/
def cleanupOldEntries (l : List (String × Int)) (now : Int) : List (String × Int) :=
  l.filter (keepEntry now)

/-- The private state of a `SmartAlertFilter` instance: the `recentAlerts`
timing map and the `suppressionRules` override map. -/
structure FilterState where
  recentAlerts : List (String × Int)
  suppressionRules : List (String × Int)
deriving DecidableEq, Repr

/-- Embedding of `SmartAlertFilter.shouldSuppressAlert` (alerts.ts lines
366-404).  `Date.now()` enters as the explicit `now` argument; the returned
pair is (decision, updated state).  On the allowed path the current time is
recorded under `` `${storeId}-${type}` `` and stale entries are purged. -/
def shouldSuppressAlert (s : FilterState) (storeId ty : String) (c : AlertContext)
    (now : Int) : Bool × FilterState :=
  let alertKey := storeId ++ "-" ++ ty
  let lastAlert := (lookupA s.recentAlerts alertKey).getD 0
  let suppressionTime := getSuppressionTime s.suppressionRules ty c
  if now - lastAlert < suppressionTime then (true, s)
  else if shouldSuppressBasedOnContext ty c then (true, s)
  else if confidenceSuppressed ty c then (true, s)
  else
    let ra := setA s.recentAlerts alertKey now
    (false, { recentAlerts := cleanupOldEntries ra now, suppressionRules := s.suppressionRules })

/-- Embedding of `SmartAlertFilter.setSuppressionRule` (alerts.ts 409-411). -/
def setSuppressionRule (s : FilterState) (ty : String) (timeMs : Int) : FilterState :=
  { s with suppressionRules := setA s.suppressionRules ty timeMs }

/-! ## Alert records (`types.ts`, interface `Alert`) -/

/-- Runtime shape of an alert object as built by `AlertManager.addAlert`.
`storeName` is declared mandatory in the TypeScript interface but the
`addAlert` signature does not require it, so at runtime it may be absent;
`fillPercent` is not declared at all but is copied onto the object by the
spread of the input data. -/
structure Alert where
  id : String
  storeId : String
  storeName : Option String := none
  type : String
  severity : Severity
  title : String
  message : String
  timestamp : String
  read : Bool
  location : Option String := none
  shelves : Option (List String) := none
  temperature : Option ℚ := none
  threshold : Option ℚ := none
  confidence : Option ℚ := none
  fillPercent : Option ℚ := none
  imageUrl : Option String := none
  annotatedImageUrl : Option String := none
deriving DecidableEq, Repr

/-- The argument of `AlertManager.addAlert`: `Partial<Alert>` with
`storeId`, `type`, `title`, `message` required.  An `Option` field that is
`none` models a property absent from the passed object, so the object spread
leaves the synthesized value in place for it. -/
structure AlertInput where
  storeId : String
  type : String
  title : String
  message : String
  id : Option String := none
  timestamp : Option String := none
  read : Option Bool := none
  severity : Option Severity := none
  storeName : Option String := none
  location : Option String := none
  shelves : Option (List String) := none
  temperature : Option ℚ := none
  threshold : Option ℚ := none
  confidence : Option ℚ := none
  fillPercent : Option ℚ := none
  imageUrl : Option String := none
  annotatedImageUrl : Option String := none
deriving DecidableEq, Repr

/-- The alert object built at the top of `AlertManager.addAlert` (alerts.ts
lines 26-36): synthesized `id`, `timestamp`, `read: false` and classified
severity first, then `...alertData` spread over them, so every property
present on the input overrides the synthesized value.  `generateId()` and
`new Date().toISOString()` enter as the explicit `genId` / `nowIso`
arguments. -/
def mkAlert (p : AlertInput) (genId nowIso : String) : Alert :=
  { id := p.id.getD genId
    storeId := p.storeId
    storeName := p.storeName
    type := p.type
    severity := p.severity.getD (calculateAlertSeverity p.type
      { temperature := p.temperature, fillPercent := p.fillPercent, confidence := p.confidence })
    title := p.title
    message := p.message
    timestamp := p.timestamp.getD nowIso
    read := p.read.getD false
    location := p.location
    shelves := p.shelves
    temperature := p.temperature
    threshold := p.threshold
    confidence := p.confidence
    fillPercent := p.fillPercent
    imageUrl := p.imageUrl
    annotatedImageUrl := p.annotatedImageUrl }

/-! ## Alert store (`alerts.ts`, class `AlertManager`) -/

/-- Observable state of an `AlertManager`: the in-memory `alerts` array, the
`pret-alerts` key of `localStorage` (`none` when never written), the number
of `notifyListeners` fan-outs, and the pending `notificationQueue`. -/
structure AlertManager where
  alerts : List Alert
  storage : Option (List Alert)
  notifyCount : Nat
  queue : List Alert
deriving DecidableEq, Repr

/-- A manager as constructed over empty browser storage. -/
def freshManager : AlertManager :=
  { alerts := [], storage := none, notifyCount := 0, queue := [] }

/-- Embedding of `AlertManager.saveToStorage` (alerts.ts lines 269-277):
only the newest 1000 alerts are written to durable storage; the in-memory
array is left alone. -/
def saveToStorage (m : AlertManager) : AlertManager :=
  { m with storage := some (m.alerts.take 1000) }

/-- Embedding of `AlertManager.notifyListeners` (alerts.ts 265-267),
observed as a fan-out counter. -/
def notifyListeners (m : AlertManager) : AlertManager :=
  { m with notifyCount := m.notifyCount + 1 }

/-- Embedding of `AlertManager.addAlert` (alerts.ts lines 20-46): build the
alert, `unshift` it (prepend, newest first), persist, notify subscribers,
queue the push notification, and return the materialized alert. -/
def addAlert (m : AlertManager) (p : AlertInput) (genId nowIso : String) :
    Alert × AlertManager :=
  let a := mkAlert p genId nowIso
  let m1 : AlertManager := { m with alerts := a :: m.alerts }
  let m2 := notifyListeners (saveToStorage m1)
  (a, { m2 with queue := m2.queue ++ [a] })

/-- Sequential `addAlert` calls, as in the retention scenario of the spec. -/
def addAll (m : AlertManager) (ps : List (AlertInput × String × String)) : AlertManager :=
  ps.foldl (fun acc q => (addAlert acc q.1 q.2.1 q.2.2).2) m

/-- Shorthand for the alert materialized from one queued input triple. -/
def mkOf (q : AlertInput × String × String) : Alert := mkAlert q.1 q.2.1 q.2.2

/-! ## Queries (`AlertManager.getAlerts`, lines 102-132) -/

/-- The optional filter argument of `AlertManager.getAlerts`. -/
structure AlertFilter where
  storeId : Option String := none
  type : Option String := none
  severity : Option Severity := none
  unreadOnly : Option Bool := none
  limit : Option Nat := none
deriving DecidableEq, Repr

/-- `if (filter?.storeId) filtered = filtered.filter(a => a.storeId === filter.storeId)`:
the guard is a truthiness test, so an empty-string criterion is skipped. -/
def stageStoreId (l : List Alert) (f : AlertFilter) : List Alert :=
  match f.storeId with
  | some s => if s = "" then l else l.filter (fun a => decide (a.storeId = s))
  | none => l

/-- `if (filter?.type) ...`, with the same truthiness behaviour. -/
def stageType (l : List Alert) (f : AlertFilter) : List Alert :=
  match f.type with
  | some t => if t = "" then l else l.filter (fun a => decide (a.type = t))
  | none => l

/-- `if (filter?.severity) ...`; the four severity strings are all truthy. -/
def stageSeverity (l : List Alert) (f : AlertFilter) : List Alert :=
  match f.severity with
  | some sv => l.filter (fun a => decide (a.severity = sv))
  | none => l

/-- `if (filter?.unreadOnly) ...`: applied only when the flag is `true`. -/
def stageUnread (l : List Alert) (f : AlertFilter) : List Alert :=
  match f.unreadOnly with
  | some true => l.filter (fun a => !a.read)
  | _ => l

/-- `if (filter?.limit) filtered = filtered.slice(0, filter.limit)`: a limit
of `0` is falsy and performs no truncation. -/
def stageLimit (l : List Alert) (f : AlertFilter) : List Alert :=
  match f.limit with
  | some n => if n = 0 then l else l.take n
  | none => l

/-- Embedding of `AlertManager.getAlerts` (alerts.ts lines 102-132): the
four criterion filters applied in source order, then the slice. -/
def getAlerts (m : AlertManager) (f : AlertFilter) : List Alert :=
  stageLimit (stageUnread (stageSeverity (stageType (stageStoreId m.alerts f) f) f) f) f

/-- The storeId criterion as a predicate: trivial when not given or given as
the falsy empty string. -/
def sidTest (f : AlertFilter) (a : Alert) : Bool :=
  match f.storeId with
  | some s => if s = "" then true else decide (a.storeId = s)
  | none => true

/-- The type criterion as a predicate, with the same truthiness proviso. -/
def tyTest (f : AlertFilter) (a : Alert) : Bool :=
  match f.type with
  | some t => if t = "" then true else decide (a.type = t)
  | none => true

/-- The severity criterion as a predicate. -/
def sevTest (f : AlertFilter) (a : Alert) : Bool :=
  match f.severity with
  | some sv => decide (a.severity = sv)
  | none => true

/-- The unread criterion as a predicate: applied only when `unreadOnly` is
given as `true`. -/
def unreadTest (f : AlertFilter) (a : Alert) : Bool :=
  match f.unreadOnly with
  | some true => !a.read
  | _ => true

/-- The conjunction (AND) of the four criteria. -/
def matchesFilter (f : AlertFilter) (a : Alert) : Bool :=
  sidTest f a && tyTest f a && sevTest f a && unreadTest f a

/-- A one-alert store used to refute claim C8 as stated. -/
def cexAlert : Alert :=
  { id := "a1", storeId := "store-a", type := "empty_shelf", severity := .medium,
    title := "t", message := "m", timestamp := "2026-01-01T00:00:00Z", read := false }

/-- The one-alert manager of the C8 counterexample. -/
def cexManager : AlertManager :=
  { alerts := [cexAlert], storage := none, notifyCount := 0, queue := [] }

/-- The query semantics exactly as claim C8 states it: every given criterion
is applied, and a given limit always truncates. -/
def claimQueryC8 (alerts : List Alert) (f : AlertFilter) : List Alert :=
  let fl := alerts.filter (fun a =>
    (match f.storeId with | some s => decide (a.storeId = s) | none => true) &&
    ((match f.type with | some t => decide (a.type = t) | none => true) &&
    ((match f.severity with | some sv => decide (a.severity = sv) | none => true) &&
    (match f.unreadOnly with | some true => !a.read | _ => true))))
  match f.limit with
  | some n => fl.take n
  | none => fl

/-- Statistics record returned by `AlertManager.getStatistics`; the
`byType` / `bySeverity` JavaScript records are observed as counting
functions (an absent record key reads as count 0 through `|| 0`). -/
structure AlertStats where
  total : Nat
  unread : Nat
  byType : String → Nat
  bySeverity : Severity → Nat
  last24Hours : Nat

/-- Embedding of `AlertManager.getStatistics` (alerts.ts lines 156-183).
`new Date(a.timestamp) > yesterday` is abstracted through the explicit
ISO-date-parsing collaborator `parseTime` and the call time `nowMs`. -/
def getStatistics (m : AlertManager) (parseTime : String → Int) (nowMs : Int) : AlertStats :=
  { total := m.alerts.length
    unread := (m.alerts.filter (fun a => !a.read)).length
    byType := fun t => (m.alerts.filter (fun a => decide (a.type = t))).length
    bySeverity := fun sv => (m.alerts.filter (fun a => decide (a.severity = sv))).length
    last24Hours := (m.alerts.filter (fun a => decide (parseTime a.timestamp > nowMs - 86400000))).length }

/-! ## JSON trees: export / import (`exportAlerts` / `importAlerts`) -/

/-- JSON values, at the granularity `JSON.parse` produces.  Objects keep
their key order as a list of pairs. -/
inductive Json where
  | null
  | bool (b : Bool)
  | num (q : ℚ)
  | str (s : String)
  | arr (elems : List Json)
  | obj (fields : List (String × Json))

/-- Property read `j.k` on a parsed value: defined only on objects; on every
other value the read yields `undefined` (or throws on `null`, which the
surrounding `try` of `importAlerts` turns into the same failed import). -/
def getField (j : Json) (k : String) : Option Json :=
  match j with
  | .obj l => lookupA l k
  | _ => none

/-- A key/value pair present only when the underlying value is:
`JSON.stringify` omits properties whose value is `undefined`. -/
def optField (k : String) (v : Option Json) : List (String × Json) :=
  match v with
  | some j => [(k, j)]
  | none => []

/-- String spelled by `JSON.stringify` for each severity value. -/
def severityStr : Severity → String
  | .low => "low"
  | .medium => "medium"
  | .high => "high"
  | .critical => "critical"

/-- Reading a severity string back. -/
def parseSeverity (s : String) : Option Severity :=
  if s = "low" then some .low
  else if s = "medium" then some .medium
  else if s = "high" then some .high
  else if s = "critical" then some .critical
  else none

/-- The mandatory properties of a serialized alert, in the creation order of
`addAlert` (synthesized fields first, then the required input fields). -/
def mandFields (a : Alert) : List (String × Json) :=
  [("id", .str a.id), ("timestamp", .str a.timestamp), ("read", .bool a.read),
   ("severity", .str (severityStr a.severity)), ("storeId", .str a.storeId),
   ("type", .str a.type), ("title", .str a.title), ("message", .str a.message)]

/-- `JSON.stringify` image of one alert object: mandatory properties
followed by whichever optional properties are present. -/
def encodeAlert (a : Alert) : Json :=
  .obj (mandFields a
    ++ optField "storeName" (a.storeName.map .str)
    ++ optField "location" (a.location.map .str)
    ++ optField "shelves" (a.shelves.map (fun l => .arr (l.map .str)))
    ++ optField "temperature" (a.temperature.map .num)
    ++ optField "threshold" (a.threshold.map .num)
    ++ optField "confidence" (a.confidence.map .num)
    ++ optField "fillPercent" (a.fillPercent.map .num)
    ++ optField "imageUrl" (a.imageUrl.map .str)
    ++ optField "annotatedImageUrl" (a.annotatedImageUrl.map .str))

/-- Embedding of `AlertManager.exportAlerts` (alerts.ts lines 238-244) at
JSON-tree level: the serialized object carries the alert array, the export
time and the format version. -/
def exportJson (alerts : List Alert) (exportedAt : String) : Json :=
  .obj [("alerts", .arr (alerts.map encodeAlert)),
        ("exportedAt", .str exportedAt),
        ("version", .str "1.0.0")]

/-- Observable outcome of `AlertManager.importAlerts`: the returned boolean,
the resulting in-memory collection (raw parsed values), and whether
`saveToStorage` / `notifyListeners` were invoked. -/
structure ImportResult where
  ok : Bool
  alerts : List Json
  persisted : Bool
  notified : Bool

/-- Embedding of `AlertManager.importAlerts` (alerts.ts lines 249-263).
The `none` input models a string `JSON.parse` rejects (the `catch` path).
On a parsed value, `data.alerts && Array.isArray(data.alerts)` succeeds
exactly when the `alerts` property holds an array (arrays are always
truthy); only then is the collection replaced, persisted and announced. -/
def importAlertsJson (cur : List Json) (inp : Option Json) : ImportResult :=
  match inp with
  | none => { ok := false, alerts := cur, persisted := false, notified := false }
  | some j =>
    match getField j "alerts" with
    | some (Json.arr l) => { ok := true, alerts := l, persisted := true, notified := true }
    | _ => { ok := false, alerts := cur, persisted := false, notified := false }

/-! ## Reading a serialized alert back (observer for the round-trip claim) -/

/-- Observer: a mandatory string property. -/
def asStr : Option Json → Option String
  | some (.str s) => some s
  | _ => none

/-- Observer: a mandatory boolean property. -/
def asBool : Option Json → Option Bool
  | some (.bool b) => some b
  | _ => none

/-- Observer: an optional string property (absent is fine). -/
def asOptStr : Option Json → Option (Option String)
  | none => some none
  | some (.str s) => some (some s)
  | some _ => none

/-- Observer: an optional numeric property (absent is fine). -/
def asOptNum : Option Json → Option (Option ℚ)
  | none => some none
  | some (.num q) => some (some q)
  | some _ => none

/-- Observer: an array of strings. -/
def decodeStrList : List Json → Option (List String)
  | [] => some []
  | .str s :: t => (decodeStrList t).map (s :: ·)
  | _ => none

/-- Observer: the optional `shelves` property. -/
def asOptShelves : Option Json → Option (Option (List String))
  | none => some none
  | some (.arr l) => (decodeStrList l).map some
  | some _ => none

/-- Observer reading the optional properties of a serialized alert object,
the mandatory field values being supplied. -/
def decodeAlertOpts (j : Json) (i sid ty ti msg ts : String) (sv : Severity)
    (rd : Bool) : Option Alert :=
  Option.bind (asOptStr (getField j "storeName")) (fun (sn : Option String) =>
  Option.bind (asOptStr (getField j "location")) (fun (loc : Option String) =>
  Option.bind (asOptShelves (getField j "shelves")) (fun (sh : Option (List String)) =>
  Option.bind (asOptNum (getField j "temperature")) (fun (tmp : Option ℚ) =>
  Option.bind (asOptNum (getField j "threshold")) (fun (thr : Option ℚ) =>
  Option.bind (asOptNum (getField j "confidence")) (fun (conf : Option ℚ) =>
  Option.bind (asOptNum (getField j "fillPercent")) (fun (fp : Option ℚ) =>
  Option.bind (asOptStr (getField j "imageUrl")) (fun (iu : Option String) =>
  Option.bind (asOptStr (getField j "annotatedImageUrl")) (fun (aiu : Option String) =>
  some (Alert.mk i sid sn ty sv ti msg ts rd loc sh tmp thr conf fp iu aiu))))))))))

/-- Observer reading a serialized alert object back into an `Alert` record;
`decodeAlert (encodeAlert a) = some a`, so serialization loses nothing. -/
def decodeAlert (j : Json) : Option Alert :=
  Option.bind (asStr (getField j "id")) (fun (i : String) =>
  Option.bind (asStr (getField j "timestamp")) (fun (ts : String) =>
  Option.bind (asBool (getField j "read")) (fun (rd : Bool) =>
  Option.bind (asStr (getField j "severity")) (fun (svs : String) =>
  Option.bind (parseSeverity svs) (fun (sv : Severity) =>
  Option.bind (asStr (getField j "storeId")) (fun (sid : String) =>
  Option.bind (asStr (getField j "type")) (fun (ty : String) =>
  Option.bind (asStr (getField j "title")) (fun (ti : String) =>
  Option.bind (asStr (getField j "message")) (fun (msg : String) =>
  decodeAlertOpts j i sid ty ti msg ts sv rd)))))))))

/-! ## Lemmas: reading properties of a serialized alert -/

/-- Key lookup distributes over list concatenation, preferring the left part. -/
theorem lookupA_append {α : Type} (l1 l2 : List (String × α)) (k : String) :
    lookupA (l1 ++ l2) k =
      (match lookupA l1 k with
       | some v => some v
       | none => lookupA l2 k) := by
  induction l1 with
  | nil => simp [lookupA]
  | cons p t ih =>
    by_cases h : p.1 = k <;> simp [lookupA, h, ih]

/-- Looking its own key up in an optional-property block yields the value. -/
theorem lookupA_optField_self (k : String) (v : Option Json) :
    lookupA (optField k v) k = v := by
  cases v <;> simp [optField, lookupA]

/-- Looking a different key up in an optional-property block yields nothing. -/
theorem lookupA_optField_ne (k k' : String) (v : Option Json) (h : ¬ k' = k) :
    lookupA (optField k' v) k = none := by
  cases v <;> simp [optField, lookupA, h]

theorem getField_enc_id (a : Alert) : getField (encodeAlert a) "id" = some (.str a.id) := rfl

theorem getField_enc_timestamp (a : Alert) :
    getField (encodeAlert a) "timestamp" = some (.str a.timestamp) := rfl

theorem getField_enc_read (a : Alert) :
    getField (encodeAlert a) "read" = some (.bool a.read) := rfl

theorem getField_enc_severity (a : Alert) :
    getField (encodeAlert a) "severity" = some (.str (severityStr a.severity)) := rfl

theorem getField_enc_storeId (a : Alert) :
    getField (encodeAlert a) "storeId" = some (.str a.storeId) := rfl

theorem getField_enc_type (a : Alert) :
    getField (encodeAlert a) "type" = some (.str a.type) := rfl

theorem getField_enc_title (a : Alert) :
    getField (encodeAlert a) "title" = some (.str a.title) := rfl

theorem getField_enc_message (a : Alert) :
    getField (encodeAlert a) "message" = some (.str a.message) := rfl

theorem getField_enc_storeName (a : Alert) :
    getField (encodeAlert a) "storeName" = a.storeName.map .str := by
  cases h : a.storeName <;>
    simp [encodeAlert, mandFields, getField, lookupA_append, lookupA,
      lookupA_optField_self, lookupA_optField_ne, h]

theorem getField_enc_location (a : Alert) :
    getField (encodeAlert a) "location" = a.location.map .str := by
  cases h : a.location <;>
    simp [encodeAlert, mandFields, getField, lookupA_append, lookupA,
      lookupA_optField_self, lookupA_optField_ne, h]

theorem getField_enc_shelves (a : Alert) :
    getField (encodeAlert a) "shelves" = a.shelves.map (fun l => .arr (l.map .str)) := by
  cases h : a.shelves <;>
    simp [encodeAlert, mandFields, getField, lookupA_append, lookupA,
      lookupA_optField_self, lookupA_optField_ne, h]

theorem getField_enc_temperature (a : Alert) :
    getField (encodeAlert a) "temperature" = a.temperature.map .num := by
  cases h : a.temperature <;>
    simp [encodeAlert, mandFields, getField, lookupA_append, lookupA,
      lookupA_optField_self, lookupA_optField_ne, h]

theorem getField_enc_threshold (a : Alert) :
    getField (encodeAlert a) "threshold" = a.threshold.map .num := by
  cases h : a.threshold <;>
    simp [encodeAlert, mandFields, getField, lookupA_append, lookupA,
      lookupA_optField_self, lookupA_optField_ne, h]

theorem getField_enc_confidence (a : Alert) :
    getField (encodeAlert a) "confidence" = a.confidence.map .num := by
  cases h : a.confidence <;>
    simp [encodeAlert, mandFields, getField, lookupA_append, lookupA,
      lookupA_optField_self, lookupA_optField_ne, h]

theorem getField_enc_fillPercent (a : Alert) :
    getField (encodeAlert a) "fillPercent" = a.fillPercent.map .num := by
  cases h : a.fillPercent <;>
    simp [encodeAlert, mandFields, getField, lookupA_append, lookupA,
      lookupA_optField_self, lookupA_optField_ne, h]

theorem getField_enc_imageUrl (a : Alert) :
    getField (encodeAlert a) "imageUrl" = a.imageUrl.map .str := by
  cases h : a.imageUrl <;>
    simp [encodeAlert, mandFields, getField, lookupA_append, lookupA,
      lookupA_optField_self, lookupA_optField_ne, h]

theorem getField_enc_annotatedImageUrl (a : Alert) :
    getField (encodeAlert a) "annotatedImageUrl" = a.annotatedImageUrl.map .str := by
  cases h : a.annotatedImageUrl <;>
    simp [encodeAlert, mandFields, getField, lookupA_append, lookupA,
      lookupA_optField_self, lookupA_optField_ne, h]

/-- Reading an encoded severity back yields the same severity. -/
theorem parseSeverity_severityStr (sv : Severity) :
    parseSeverity (severityStr sv) = some sv := by
  cases sv <;> rfl

/-- Reading an encoded string list back yields the same list. -/
theorem decodeStrList_map (l : List String) :
    decodeStrList (l.map Json.str) = some l := by
  induction l with
  | nil => rfl
  | cons h t ih => simp [decodeStrList, ih]

theorem asOptStr_map (o : Option String) : asOptStr (o.map Json.str) = some o := by
  cases o <;> rfl

theorem asOptNum_map (o : Option ℚ) : asOptNum (o.map Json.num) = some o := by
  cases o <;> rfl

theorem asOptShelves_map (o : Option (List String)) :
    asOptShelves (o.map (fun l => Json.arr (l.map Json.str))) = some o := by
  cases o with
  | none => rfl
  | some l => simp [asOptShelves, decodeStrList_map]

/-- Serialization of an alert loses nothing: decoding its encoding gives the
alert back, every field (id, timestamp, severity, read flag, optional
context) included. -/
theorem decodeAlert_encodeAlert (a : Alert) : decodeAlert (encodeAlert a) = some a := by
  simp [decodeAlert, decodeAlertOpts,
    getField_enc_id, getField_enc_timestamp, getField_enc_read, getField_enc_severity,
    getField_enc_storeId, getField_enc_type, getField_enc_title, getField_enc_message,
    getField_enc_storeName, getField_enc_location, getField_enc_shelves,
    getField_enc_temperature, getField_enc_threshold, getField_enc_confidence,
    getField_enc_fillPercent, getField_enc_imageUrl, getField_enc_annotatedImageUrl,
    asStr, asBool, parseSeverity_severityStr, asOptStr_map, asOptNum_map, asOptShelves_map]

/-! ## Claim theorems: export / import -/

/-- Claim C5: exporting an alert collection and importing it into a fresh
store succeeds, and the imported collection is the identical ordered
sequence of alerts — reading each one back yields the original alert with
id, timestamp, severity and read flag (and all other fields) preserved. -/
theorem claim_c5_export_import_roundtrip (as : List Alert) (exportedAt : String) :
    (importAlertsJson [] (some (exportJson as exportedAt))).ok = true ∧
    (importAlertsJson [] (some (exportJson as exportedAt))).alerts = as.map encodeAlert ∧
    ((importAlertsJson [] (some (exportJson as exportedAt))).alerts).map decodeAlert
      = as.map some := by
  have h : importAlertsJson [] (some (exportJson as exportedAt)) =
      { ok := true, alerts := as.map encodeAlert, persisted := true, notified := true } := rfl
  refine ⟨by rw [h], by rw [h], ?_⟩
  rw [h]
  simp [List.map_map, Function.comp_def, decodeAlert_encodeAlert]

/-- Claim C6: on any parse outcome, either the import fails — input not
valid JSON, or no array under the `alerts` key — returning `false` with the
collection, storage and subscribers untouched, or the input holds an array
under `alerts` and the whole collection is atomically replaced by it,
persisted and announced, returning `true`. -/
theorem claim_c6_import_dichotomy (cur : List Json) (inp : Option Json) :
    (importAlertsJson cur inp =
      { ok := false, alerts := cur, persisted := false, notified := false }) ∨
    (∃ j l, inp = some j ∧ getField j "alerts" = some (Json.arr l) ∧
      importAlertsJson cur inp =
        { ok := true, alerts := l, persisted := true, notified := true }) := by
  cases inp with
  | none => exact Or.inl rfl
  | some j =>
    cases h : getField j "alerts" with
    | none => exact Or.inl (by simp [importAlertsJson, h])
    | some v =>
      cases v with
      | arr l => exact Or.inr ⟨j, l, rfl, h, by simp [importAlertsJson, h]⟩
      | null => exact Or.inl (by simp [importAlertsJson, h])
      | bool b => exact Or.inl (by simp [importAlertsJson, h])
      | num q => exact Or.inl (by simp [importAlertsJson, h])
      | str s => exact Or.inl (by simp [importAlertsJson, h])
      | obj f => exact Or.inl (by simp [importAlertsJson, h])

/-! ## Lemmas about the suppression timing map -/

/-- After recording `now` under `k` and purging stale entries, the key `k`
reads back as `now`: the fresh entry always survives the one-hour filter. -/
theorem lookupA_cleanup_setA (l : List (String × Int)) (k : String) (now : Int) :
    lookupA (cleanupOldEntries (setA l k now) now) k = some now := by
  have hkeep : keepEntry now (k, now) = true := by simp [keepEntry]
  induction l with
  | nil =>
    simp [setA, cleanupOldEntries, List.filter_cons, hkeep, lookupA]
  | cons p t ih =>
    obtain ⟨k', v⟩ := p
    by_cases h : k' = k
    · simp [setA, h, cleanupOldEntries, List.filter_cons, hkeep, lookupA]
    · by_cases hv : keepEntry now (k', v) = true <;>
        simpa [setA, h, cleanupOldEntries, List.filter_cons, hv, lookupA]
          using ih

/-! ## Lemmas about sequences of addAlert calls -/

/-- One `addAlert` step prepends the materialized alert to the in-memory
collection. -/
theorem addAlert_alerts (m : AlertManager) (p : AlertInput) (g n : String) :
    ((addAlert m p g n).2).alerts = mkAlert p g n :: m.alerts := rfl

/-- One `addAlert` step persists the first 1000 of the new collection. -/
theorem addAlert_storage (m : AlertManager) (p : AlertInput) (g n : String) :
    ((addAlert m p g n).2).storage = some (((addAlert m p g n).2).alerts.take 1000) := rfl

/-- After a run of `addAlert` calls the in-memory collection is the reversed
run (newest first) in front of whatever was there before. -/
theorem addAll_alerts (ps : List (AlertInput × String × String)) :
    ∀ m : AlertManager, (addAll m ps).alerts = (ps.map mkOf).reverse ++ m.alerts := by
  induction ps with
  | nil => intro m; simp [addAll]
  | cons q t ih =>
    intro m
    have hstep : addAll m (q :: t) = addAll ((addAlert m q.1 q.2.1 q.2.2).2) t := rfl
    rw [hstep, ih, addAlert_alerts]
    simp [mkOf]

/-- After a nonempty run of `addAlert` calls the durable storage holds the
first 1000 of the final in-memory collection. -/
theorem addAll_storage (ps : List (AlertInput × String × String)) (hne : ps ≠ []) :
    ∀ m : AlertManager,
      (addAll m ps).storage = some ((addAll m ps).alerts.take 1000) := by
  induction ps with
  | nil => exact absurd rfl hne
  | cons q t ih =>
    intro m
    cases t with
    | nil => rfl
    | cons q2 t2 =>
      have hstep : addAll m (q :: q2 :: t2) = addAll ((addAlert m q.1 q.2.1 q.2.2).2) (q2 :: t2) := rfl
      rw [hstep]
      exact ih (by simp) _

/-! ## Lemmas: the query stages as filters -/

theorem stageStoreId_eq_filter (l : List Alert) (f : AlertFilter) :
    stageStoreId l f = l.filter (sidTest f) := by
  cases h : f.storeId with
  | none =>
    rw [show sidTest f = fun _ => true from funext (fun a => by simp [sidTest, h])]
    simp [stageStoreId, h, List.filter_true]
  | some s =>
    by_cases hs : s = ""
    · rw [show sidTest f = fun _ => true from funext (fun a => by simp [sidTest, h, hs])]
      simp [stageStoreId, h, hs, List.filter_true]
    · rw [show sidTest f = fun a => decide (a.storeId = s) from
        funext (fun a => by simp [sidTest, h, hs])]
      simp [stageStoreId, h, hs]

theorem stageType_eq_filter (l : List Alert) (f : AlertFilter) :
    stageType l f = l.filter (tyTest f) := by
  cases h : f.type with
  | none =>
    rw [show tyTest f = fun _ => true from funext (fun a => by simp [tyTest, h])]
    simp [stageType, h, List.filter_true]
  | some t =>
    by_cases ht : t = ""
    · rw [show tyTest f = fun _ => true from funext (fun a => by simp [tyTest, h, ht])]
      simp [stageType, h, ht, List.filter_true]
    · rw [show tyTest f = fun a => decide (a.type = t) from
        funext (fun a => by simp [tyTest, h, ht])]
      simp [stageType, h, ht]

theorem stageSeverity_eq_filter (l : List Alert) (f : AlertFilter) :
    stageSeverity l f = l.filter (sevTest f) := by
  cases h : f.severity with
  | none =>
    rw [show sevTest f = fun _ => true from funext (fun a => by simp [sevTest, h])]
    simp [stageSeverity, h, List.filter_true]
  | some sv =>
    rw [show sevTest f = fun a => decide (a.severity = sv) from
      funext (fun a => by simp [sevTest, h])]
    simp [stageSeverity, h]

theorem stageUnread_eq_filter (l : List Alert) (f : AlertFilter) :
    stageUnread l f = l.filter (unreadTest f) := by
  cases h : f.unreadOnly with
  | none =>
    rw [show unreadTest f = fun _ => true from funext (fun a => by simp [unreadTest, h])]
    simp [stageUnread, h, List.filter_true]
  | some b =>
    cases b with
    | false =>
      rw [show unreadTest f = fun _ => true from funext (fun a => by simp [unreadTest, h])]
      simp [stageUnread, h, List.filter_true]
    | true =>
      rw [show unreadTest f = fun a => !a.read from funext (fun a => by simp [unreadTest, h])]
      simp [stageUnread, h]

/-! ## Claim theorems: retention and the in-memory collection -/

/-- Claim C7: 1001 sequential `addAlert` calls on a fresh store leave
in-memory all 1001 alerts newest-first, and in durable storage exactly the
newest 1000 — the single oldest (first-added) one dropped, order intact;
moreover every `addAlert` mutation truncates to the newest 1000 before
writing to storage. -/
theorem claim_c7_retention (ps : List (AlertInput × String × String))
    (h : ps.length = 1001) :
    (addAll freshManager ps).alerts = (ps.map mkOf).reverse ∧
    (addAll freshManager ps).storage = some (((ps.drop 1).map mkOf).reverse) ∧
    ((addAll freshManager ps).storage.getD []).length = 1000 ∧
    (∀ (m : AlertManager) (p : AlertInput) (g n : String),
      ((addAlert m p g n).2).storage = some (((addAlert m p g n).2).alerts.take 1000)) := by
  have hne : ps ≠ [] := by
    intro hc
    rw [hc] at h
    exact absurd h (by decide)
  have ha : (addAll freshManager ps).alerts = (ps.map mkOf).reverse := by
    rw [addAll_alerts]
    simp [freshManager]
  have hs : (addAll freshManager ps).storage = some (((ps.drop 1).map mkOf).reverse) := by
    rw [addAll_storage ps hne, ha, List.take_reverse]
    simp [h, List.map_drop]
  refine ⟨ha, hs, ?_, fun m p g n => addAlert_storage m p g n⟩
  rw [hs]
  simp [h]

/-- Witness for C7 at a concrete run of 1001 identical inputs. -/
theorem claim_c7_retention_witness :
    (addAll freshManager (List.replicate 1001
        (({ storeId := "s1", type := "empty_shelf", title := "t", message := "m" } : AlertInput),
          "g", "now"))).storage =
      some ((((List.replicate 1001
        (({ storeId := "s1", type := "empty_shelf", title := "t", message := "m" } : AlertInput),
          "g", "now")).drop 1).map mkOf).reverse) :=
  (claim_c7_retention _ (by rw [List.length_replicate])).2.1

/-- Claim C9: every field present on the input of `addAlert` overrides the
synthesized value — id, timestamp, read flag and severity included — and the
alert stored at the head of the collection is the returned one; concretely,
a caller-chosen `low` severity survives on an `equipment_failure` alert that
the classifier would rate `critical`. -/
theorem claim_c9_caller_overrides (m : AlertManager) (p : AlertInput) (g n : String) :
    ((addAlert m p g n).1).id = p.id.getD g ∧
    ((addAlert m p g n).1).timestamp = p.timestamp.getD n ∧
    ((addAlert m p g n).1).read = p.read.getD false ∧
    ((addAlert m p g n).1).severity = p.severity.getD (calculateAlertSeverity p.type
      { temperature := p.temperature, fillPercent := p.fillPercent,
        confidence := p.confidence }) ∧
    ((addAlert m p g n).2).alerts = (addAlert m p g n).1 :: m.alerts ∧
    ((addAlert freshManager
        { storeId := "s1", type := "equipment_failure", title := "t", message := "m",
          severity := some .low } "g" "now").1).severity = .low ∧
    calculateAlertSeverity "equipment_failure" {} = .critical :=
  ⟨rfl, rfl, rfl, rfl, rfl, rfl, rfl⟩

/-- Claim C10: the in-memory collection is never trimmed to the 1000-alert
retention cap: after N > 1000 additions on a fresh store, the unfiltered
query, the statistics total and the collection itself all report N alerts
while durable storage holds exactly 1000. -/
theorem claim_c10_memory_exceeds_storage (ps : List (AlertInput × String × String))
    (h : 1000 < ps.length) :
    ((addAll freshManager ps).alerts).length = ps.length ∧
    (getAlerts (addAll freshManager ps) {}).length = ps.length ∧
    (∀ (parseTime : String → Int) (nowMs : Int),
      (getStatistics (addAll freshManager ps) parseTime nowMs).total = ps.length) ∧
    ((addAll freshManager ps).storage.getD []).length = 1000 := by
  have hne : ps ≠ [] := by
    intro hc
    rw [hc] at h
    exact absurd h (by decide)
  have ha : ((addAll freshManager ps).alerts).length = ps.length := by
    rw [addAll_alerts]
    simp [freshManager]
  have hq : getAlerts (addAll freshManager ps) {} = (addAll freshManager ps).alerts := rfl
  refine ⟨ha, by rw [hq, ha], fun parseTime nowMs => ha, ?_⟩
  rw [addAll_storage ps hne]
  simp [List.length_take, ha, Nat.min_eq_left (le_of_lt h)]

/-- Witness for C10 at a concrete run of 1001 identical inputs. -/
theorem claim_c10_memory_exceeds_storage_witness :
    ((addAll freshManager (List.replicate 1001
        (({ storeId := "s1", type := "temperature", title := "t", message := "m" } : AlertInput),
          "g", "now"))).alerts).length =
      (List.replicate 1001
        (({ storeId := "s1", type := "temperature", title := "t", message := "m" } : AlertInput),
          "g", "now")).length ∧
    ((addAll freshManager (List.replicate 1001
        (({ storeId := "s1", type := "temperature", title := "t", message := "m" } : AlertInput),
          "g", "now"))).storage.getD []).length = 1000 := by
  obtain ⟨h1, _, _, h4⟩ := claim_c10_memory_exceeds_storage (List.replicate 1001
    (({ storeId := "s1", type := "temperature", title := "t", message := "m" } : AlertInput),
      "g", "now")) (by rw [List.length_replicate]; norm_num)
  exact ⟨h1, h4⟩

/-! ## Claim theorems: suppression engine -/

/-- Claim C1: for a fixed (storeId, type) and a context that triggers neither
the context-based rules nor the confidence floor, two consecutive
`shouldSuppressAlert` calls less than the applicable suppression window apart
are first allowed and then suppressed. -/
theorem claim_c1_window_pair
    (s : FilterState) (sid ty : String) (c : AlertContext) (n1 n2 : Int)
    (hctx : shouldSuppressBasedOnContext ty c = false)
    (hconf : confidenceSuppressed ty c = false)
    (hfresh : getSuppressionTime s.suppressionRules ty c ≤
      n1 - (lookupA s.recentAlerts (sid ++ "-" ++ ty)).getD 0)
    (hgap : n2 - n1 < getSuppressionTime s.suppressionRules ty c) :
    (shouldSuppressAlert s sid ty c n1).1 = false ∧
    (shouldSuppressAlert (shouldSuppressAlert s sid ty c n1).2 sid ty c n2).1 = true := by
  have h1 : ¬ (n1 - (lookupA s.recentAlerts (sid ++ "-" ++ ty)).getD 0 <
      getSuppressionTime s.suppressionRules ty c) := not_lt.mpr hfresh
  have hstate : (shouldSuppressAlert s sid ty c n1).2 =
      { recentAlerts := cleanupOldEntries (setA s.recentAlerts (sid ++ "-" ++ ty) n1) n1,
        suppressionRules := s.suppressionRules } := by
    simp [shouldSuppressAlert, h1, hctx, hconf]
  refine ⟨by simp [shouldSuppressAlert, h1, hctx, hconf], ?_⟩
  rw [hstate]
  simp [shouldSuppressAlert, lookupA_cleanup_setA, hgap]

/-- Witness for C1: a fresh filter, store `s1`, type `equipment_failure`,
empty context, two calls 1000 ms apart (window 120000 ms). -/
theorem claim_c1_window_pair_witness :
    (shouldSuppressAlert ⟨[], []⟩ "s1" "equipment_failure" {} 1000000).1 = false ∧
    (shouldSuppressAlert (shouldSuppressAlert ⟨[], []⟩ "s1" "equipment_failure" {} 1000000).2
      "s1" "equipment_failure" {} 1001000).1 = true :=
  claim_c1_window_pair ⟨[], []⟩ "s1" "equipment_failure" {} 1000000 1001000
    (by decide) (by decide) (by decide) (by decide)

/-- Claim C2, as stated, is false at confidence `0`: the guard
`context.confidence && ...` is a truthiness test, so a present confidence of
`0`, although strictly below the floor 70, does not suppress. -/
theorem claim_c2_counterexample :
    (shouldSuppressAlert ⟨[], []⟩ "s1" "empty_shelf" { confidence := some 0 } 1000000000).1
      = false ∧
    (0 : ℚ) < getMinConfidence "empty_shelf" := by
  constructor
  · decide
  · decide

/-- Claim C2 amended: whenever the context carries a present and nonzero
confidence strictly below the type's minimum, `shouldSuppressAlert` returns
`true`, whatever the engine state and the current time. -/
theorem claim_c2_confidence_floor (s : FilterState) (sid ty : String)
    (c : AlertContext) (now : Int) (conf : ℚ)
    (hc : c.confidence = some conf) (hnz : conf ≠ 0)
    (hlt : conf < getMinConfidence ty) :
    (shouldSuppressAlert s sid ty c now).1 = true := by
  have hcs : confidenceSuppressed ty c = true := by
    simp [confidenceSuppressed, numTest, hc, hnz, hlt]
  simp only [shouldSuppressAlert]
  split_ifs with h1 h2
  · rfl
  · rfl
  · rfl

/-- Witness for the amended C2, on the spec's own example:
`shouldSuppress('s1','empty_shelf',{fillPercent:3, confidence:50})` is
suppressed (50 is below the floor 70). -/
theorem claim_c2_confidence_floor_witness :
    (shouldSuppressAlert ⟨[], []⟩ "s1" "empty_shelf"
      { fillPercent := some 3, confidence := some 50 } 1000000000).1 = true :=
  claim_c2_confidence_floor ⟨[], []⟩ "s1" "empty_shelf"
    { fillPercent := some 3, confidence := some 50 } 1000000000 50
    rfl (by decide) (by decide)

/-- Claim C3, as stated, is false at a present value `0`: the guards
`!context.temperature` / `!context.fillPercent` treat `0` like an absent
field, so the code classifies it `medium` where the claimed table says `low`
(temperature) resp. `high` (fill percentage below 5). -/
theorem claim_c3_counterexample :
    calculateAlertSeverity "temperature" { temperature := some 0 } = .medium ∧
    claimSeverityTable "temperature" { temperature := some 0 } = .low ∧
    calculateAlertSeverity "empty_shelf" { fillPercent := some 0 } = .medium ∧
    claimSeverityTable "empty_shelf" { fillPercent := some 0 } = .high ∧
    calculateAlertSeverity "temperature" { temperature := some 0 } ≠
      claimSeverityTable "temperature" { temperature := some 0 } := by
  refine ⟨by decide, by decide, by decide, by decide, by decide⟩

/-- Claim C3 amended: `calculateAlertSeverity` realizes exactly the claimed
rule table once "absent" is widened to "absent or zero" for
`context.temperature` and `context.fillPercent`. -/
theorem claim_c3_severity_table (ty : String) (c : SeverityContext) :
    calculateAlertSeverity ty c = amendedSeverityTable ty c := rfl

/-- Claim C4: a suppressed call leaves the engine state untouched; an
allowed call records the current timestamp under the (storeId, type) key and
purges entries older than one hour, leaving the override rules alone. -/
theorem claim_c4_frame (s : FilterState) (sid ty : String) (c : AlertContext) (now : Int) :
    ((shouldSuppressAlert s sid ty c now).1 = true ∧
      (shouldSuppressAlert s sid ty c now).2 = s) ∨
    ((shouldSuppressAlert s sid ty c now).1 = false ∧
      (shouldSuppressAlert s sid ty c now).2.recentAlerts =
        cleanupOldEntries (setA s.recentAlerts (sid ++ "-" ++ ty) now) now ∧
      lookupA ((shouldSuppressAlert s sid ty c now).2.recentAlerts) (sid ++ "-" ++ ty)
        = some now ∧
      (shouldSuppressAlert s sid ty c now).2.suppressionRules = s.suppressionRules) := by
  simp only [shouldSuppressAlert]
  split_ifs
  · exact Or.inl ⟨rfl, rfl⟩
  · exact Or.inl ⟨rfl, rfl⟩
  · exact Or.inl ⟨rfl, rfl⟩
  · exact Or.inr ⟨rfl, rfl, lookupA_cleanup_setA _ _ _, rfl⟩

/-! ## Claim theorems: queries -/

/-- Claim C8 amended: `getAlerts` returns the stored alerts satisfying the
conjunction (AND) of the storeId, type, severity and unreadOnly criteria in
stored newest-first order, truncated to the first `limit` elements — with
the proviso that each criterion counts as given only when truthy: an
empty-string storeId or type, a `false` unreadOnly and a `limit` of 0 are
skipped.  The result is a fresh filtered copy; the pure state `m` is not
part of the result, so the stored collection is untouched. -/
theorem claim_c8_conjunctive_query (m : AlertManager) (f : AlertFilter) :
    getAlerts m f = stageLimit (m.alerts.filter (matchesFilter f)) f := by
  unfold getAlerts
  rw [stageStoreId_eq_filter, stageType_eq_filter, stageSeverity_eq_filter,
    stageUnread_eq_filter, List.filter_filter, List.filter_filter, List.filter_filter]
  congr 1
  refine List.filter_congr (fun a _ => ?_)
  cases hs : sidTest f a <;> cases ht : tyTest f a <;> cases hv : sevTest f a <;>
    cases hu : unreadTest f a <;> simp [matchesFilter, hs, ht, hv, hu]

/-- Claim C8, as stated, is false on truthiness corners: a given storeId
criterion of `""` is skipped by the code (the alert with storeId `store-a`
is returned where the claimed conjunctive filter returns nothing), and a
given limit of `0` performs no truncation. -/
theorem claim_c8_counterexample :
    getAlerts cexManager { storeId := some "" } = [cexAlert] ∧
    claimQueryC8 cexManager.alerts { storeId := some "" } = [] ∧
    getAlerts cexManager { storeId := some "" } ≠
      claimQueryC8 cexManager.alerts { storeId := some "" } ∧
    getAlerts cexManager { limit := some 0 } = [cexAlert] ∧
    claimQueryC8 cexManager.alerts { limit := some 0 } = [] := by
  refine ⟨rfl, rfl, ?_, rfl, rfl⟩
  decide
